import Mathlib

/-!
Verification of the tunococ/dashboard SDL3 application skeleton
(src/sdl3: app.cpp, main.cpp, libs/utils defer.hpp).

The embedding models:
- the verdict enumeration `SDL_AppResult`;
- the `App` struct (window/renderer handles as `Option Nat`, the two
  steady-clock timestamps as `Int` nanosecond counts);
- the `Defer` scope guard of utils/defer.hpp as the combinator `withDefer`
  (the deferred function runs when the body's scope exits, on every path);
- the four lifecycle operations `App.init`, `App.onTick`, `App.onEvent`,
  `App.onExit` from src/sdl3/src/app.cpp, with external SDL calls
  (window/renderer destruction, SDL_Quit) recorded as an action list;
- the ticker thread's loop body and deadline recurrence from
  src/sdl3/src/main.cpp;
- the foreground dispatch loop and the whole of `main` as a function of the
  external inputs: the outcome of SDL_CreateWindowAndRenderer, the
  identifier returned by SDL_RegisterEvents, and the merged queue of
  entries dequeued by SDL_WaitEvent (each with the steady-clock time at
  which its handler runs).
-/

namespace Dashboard

/-- SDL_AppResult, the three-state verdict of the lifecycle operations. -/
inductive SDL_AppResult where
  | SDL_APP_CONTINUE
  | SDL_APP_SUCCESS
  | SDL_APP_FAILURE
deriving DecidableEq, Repr

export SDL_AppResult (SDL_APP_CONTINUE SDL_APP_SUCCESS SDL_APP_FAILURE)

/-- SDL_EVENT_QUIT (0x100). -/
def SDL_EVENT_QUIT : Nat := 0x100

/-- SDL_EVENT_KEY_DOWN (0x300). -/
def SDL_EVENT_KEY_DOWN : Nat := 0x300

/-- SDLK_Q, the designated quit key (0x71, lowercase q keycode). -/
def SDLK_Q : Nat := 0x71

/-- TICK_PERIOD from main.cpp: 1 s, in steady-clock nanoseconds. -/
def TICK_PERIOD : Int := 1000000000

/-- An SDL_Event, reduced to the fields the code reads: the `type`
discriminator and, for keyboard events, the `key` code. -/
structure SDL_Event where
  type : Nat
  key : Nat := 0
deriving DecidableEq, Repr

/-- The App struct of app.hpp: two nullable handles (opaque ids) and two
steady-clock timestamps, value-initialized to null handles. -/
structure App where
  window : Option Nat := none
  renderer : Option Nat := none
  last_tick_time : Int := 0
  last_event_time : Int := 0
deriving DecidableEq, Repr

/-- The `Defer` class of libs/utils/include/utils/defer.hpp: the stored
function runs when the scope is left, after the body computed its result,
whichever return path the body took. -/
def withDefer {σ α : Type} (func : σ → σ) (body : σ → α × σ) (s : σ) : α × σ :=
  let r := body s
  (r.1, func r.2)

/-- App::init (app.cpp). `creation` is the outcome of the external
SDL_CreateWindowAndRenderer call: `none` means failure (init reports
SDL_APP_FAILURE), `some (w, r)` means the two handles were populated. -/
def App.init (creation : Option (Nat × Nat)) (a : App) : SDL_AppResult × App :=
  match creation with
  | none => (SDL_APP_FAILURE, a)
  | some wr =>
      (SDL_APP_CONTINUE, { a with window := some wr.1, renderer := some wr.2 })

/-- App::onTick (app.cpp): registers a Defer that saves `now` into
`last_tick_time` at scope exit, logs, and returns SDL_APP_CONTINUE. -/
def App.onTick (now : Int) (a : App) : SDL_AppResult × App :=
  withDefer (fun s => { s with last_tick_time := now })
    (fun s => (SDL_APP_CONTINUE, s)) a

/-- App::onEvent (app.cpp): null check first (returns SDL_APP_FAILURE before
the Defer is registered), then the Defer saving `last_event_time`, then the
switch on the event type; the KEY_DOWN case falls through to the default
(log) when the key is not SDLK_Q, and the function ends in
SDL_APP_CONTINUE. -/
def App.onEvent (event : Option SDL_Event) (now : Int) (a : App) :
    SDL_AppResult × App :=
  match event with
  | none => (SDL_APP_FAILURE, a)
  | some e =>
      withDefer (fun s => { s with last_event_time := now })
        (fun s =>
          if e.type = SDL_EVENT_QUIT then (SDL_APP_SUCCESS, s)
          else if e.type = SDL_EVENT_KEY_DOWN then
            if e.key = SDLK_Q then (SDL_APP_SUCCESS, s) else (SDL_APP_CONTINUE, s)
          else (SDL_APP_CONTINUE, s)) a

/-- External SDL teardown calls made by App::onExit. -/
inductive SdlAction where
  | destroyRenderer (h : Nat)
  | destroyWindow (h : Nat)
  | sdlQuit
deriving DecidableEq, Repr

/-- App::onExit (app.cpp): destroys the renderer if present and nulls it,
then destroys the window if present and nulls it, then calls SDL_Quit.
The verdict argument is ignored. -/
def App.onExit (result : SDL_AppResult) (a : App) : App × List SdlAction :=
  let step1 : App × List SdlAction :=
    match a.renderer with
    | some r => ({ a with renderer := none }, [SdlAction.destroyRenderer r])
    | none => (a, [])
  let step2 : App × List SdlAction :=
    match step1.1.window with
    | some w => ({ step1.1 with window := none }, [SdlAction.destroyWindow w])
    | none => (step1.1, [])
  (step2.1, step1.2 ++ step2.2 ++ [SdlAction.sdlQuit])

/-! ### The ticker thread (main.cpp) -/

/-- One pass of the ticker thread's while loop, as a function of the
`quitting` flag the condition-variable wait observes and of the current
`last_tick_time`. Returns the updated `last_tick_time` (`none` when the
loop breaks) and how many tick events were pushed during the pass:
if `quitting` is seen, the loop breaks at once and pushes nothing;
otherwise it pushes one tick and sets `last_tick_time = next_tick_time`. -/
def tickerIter (quitting : Bool) (last : Int) : Option Int × Nat :=
  if quitting then (none, 0)
  else (some (last + TICK_PERIOD), 1)

/-- The assignment `last_tick_time = next_tick_time` of the ticker loop.
`wake`, the steady-clock time at which the wait actually returned (late by
however long the previous handler or enqueue took), is not read: the code
advances by the scheduled deadline, not by now. -/
def tickerNext (last : Int) (wake : Int) : Int := last + TICK_PERIOD

/-- `last_tick_time` held by the ticker before its (n+1)-th wait, starting
from `t0 = Clock::now()` at thread start, under an arbitrary sequence of
actual wake-up times. -/
def tickerLastSeq (t0 : Int) (wakes : Nat → Int) : Nat → Int
  | 0 => t0
  | n + 1 => tickerNext (tickerLastSeq t0 wakes n) (wakes n)

/-- `next_tick_time` computed for the ticker's (n+1)-th wait. -/
def tickerDeadline (t0 : Int) (wakes : Nat → Int) (n : Nat) : Int :=
  tickerLastSeq t0 wakes n + TICK_PERIOD

/-! ### The foreground dispatch loop and main (main.cpp) -/

/-- How one dequeued entry was routed. -/
inductive Dispatch where
  | tick
  | event (e : SDL_Event)
deriving DecidableEq, Repr

/-- Result of the foreground while loop. `fin = none` means the queue model
was exhausted with every verdict SDL_APP_CONTINUE: the real loop would
still be blocked in SDL_WaitEvent. -/
structure LoopResult where
  trace : List Dispatch
  fin : Option SDL_AppResult
  app : App
deriving DecidableEq, Repr

/-- The foreground while loop of main: for each entry dequeued from the
merged queue (paired with the steady-clock time at which its handler
runs), route it to onTick when its type equals the registered tick event
type and to onEvent otherwise, and break as soon as a handler returns a
verdict other than SDL_APP_CONTINUE. -/
def runLoop (tickType : Nat) : List (SDL_Event × Int) → App → LoopResult
  | [], a => ⟨[], none, a⟩
  | (e, now) :: rest, a =>
      let step :=
        if e.type = tickType then App.onTick now a else App.onEvent (some e) now a
      let d := if e.type = tickType then Dispatch.tick else Dispatch.event e
      if step.1 = SDL_APP_CONTINUE then
        let r := runLoop tickType rest step.2
        ⟨d :: r.trace, r.fin, r.app⟩
      else
        ⟨[d], some step.1, step.2⟩

/-- The externally visible actions of main, in program order. -/
inductive MainAction where
  | setQuitting
  | notifyQuit
  | joinTicker
  | appOnExit
  | processExit (code : Nat)
deriving DecidableEq, Repr

/-- Which return statement of main was taken. -/
inductive ExitPath where
  | earlySuccess
  | earlyFailure
  | regFailure
  | loopExit
  | running
deriving DecidableEq, Repr

/-- A run of main: the path taken, the ordered trace of externally visible
actions, the value of the `result` variable when the run ended, and the
process exit status (`none` when the loop is still running). -/
structure MainRun where
  path : ExitPath
  trace : List MainAction
  finalVerdict : SDL_AppResult
  exitCode : Option Nat
deriving DecidableEq, Repr

/-- The tail of main after the dispatch loop: under the mutex set quitting
and break, notify the condition variable, join the ticker, run the deferred
App::onExit at scope exit, and translate the final verdict to the exit
status. `fin` is the verdict that broke the loop (`none`: the loop is
still blocked in SDL_WaitEvent and main has not progressed). -/
def mainAfterLoop (fin : Option SDL_AppResult) : MainRun :=
  match fin with
  | none => ⟨ExitPath.running, [], SDL_APP_CONTINUE, none⟩
  | some res =>
      ⟨ExitPath.loopExit,
        [MainAction.setQuitting, MainAction.notifyQuit, MainAction.joinTicker,
          MainAction.appOnExit,
          MainAction.processExit (if res = SDL_APP_SUCCESS then 0 else 1)],
        res, some (if res = SDL_APP_SUCCESS then 0 else 1)⟩

/-- main (main.cpp) as a function of its external inputs. `creation` is the
outcome of SDL_CreateWindowAndRenderer inside App::init; `tickType` is the
value SDL_RegisterEvents returned (0 on failure, as `if (!tick_event_type)`
tests); `entries` is the merged queue contents dequeued by SDL_WaitEvent.
The Defer `app_shut_down` (which calls App::onExit) is registered only
after the two early returns on init's verdict, so those paths run no
onExit; every later return runs it exactly once at scope exit. -/
def mainRun (creation : Option (Nat × Nat)) (tickType : Nat)
    (entries : List (SDL_Event × Int)) : MainRun :=
  let ir := App.init creation {}
  if ir.1 = SDL_APP_SUCCESS then
    ⟨ExitPath.earlySuccess, [MainAction.processExit 0], ir.1, some 0⟩
  else if ir.1 = SDL_APP_FAILURE then
    ⟨ExitPath.earlyFailure, [MainAction.processExit 1], ir.1, some 1⟩
  else if tickType = 0 then
    ⟨ExitPath.regFailure, [MainAction.appOnExit, MainAction.processExit 1],
      ir.1, some 1⟩
  else
    mainAfterLoop (runLoop tickType entries ir.2).fin

/-! ### Spec-side definitions (for the ordering claim) -/

/-- The verdict an entry's handler returns, as a function of the entry
alone (onTick always continues; onEvent's verdict depends only on the
event). -/
def entryVerdict (tickType : Nat) (e : SDL_Event) : SDL_AppResult :=
  if e.type = tickType then SDL_APP_CONTINUE
  else if e.type = SDL_EVENT_QUIT then SDL_APP_SUCCESS
  else if e.type = SDL_EVENT_KEY_DOWN then
    if e.key = SDLK_Q then SDL_APP_SUCCESS else SDL_APP_CONTINUE
  else SDL_APP_CONTINUE

/-- The routing rule of the spec: tick iff the type equals the negotiated
tick identifier, native event otherwise. -/
def routeOf (tickType : Nat) (e : SDL_Event) : Dispatch :=
  if e.type = tickType then Dispatch.tick else Dispatch.event e

/-- The prefix of a list up to and including the first element satisfying
`p` (the whole list if none does). -/
def takeThrough {α : Type} (p : α → Bool) : List α → List α
  | [] => []
  | x :: xs => if p x then [x] else x :: takeThrough p xs

/-- Modelled from the spec's ordering guarantee: the dispatch sequence is
the arrival-order prefix of the merged queue up to and including the first
entry whose handler verdict is not Continue, each entry routed by the
tick-identifier test. -/
def specDispatch (tickType : Nat) (entries : List (SDL_Event × Int)) :
    List Dispatch :=
  (takeThrough (fun p => decide (entryVerdict tickType p.1 ≠ SDL_APP_CONTINUE))
      entries).map (fun p => routeOf tickType p.1)

/-- Whether, scanning the action trace left to right, no process exit
occurs before the ticker thread has been joined. -/
def exitPrecededByJoin : List MainAction → Bool
  | [] => true
  | MainAction.processExit _ :: _ => false
  | MainAction.joinTicker :: _ => true
  | _ :: rest => exitPrecededByJoin rest

/-! ### Helper lemmas -/

/-- The deferred function fires on the state regardless of the body's path. -/
theorem withDefer_snd {σ α : Type} (func : σ → σ) (body : σ → α × σ) (s : σ) :
    (withDefer func body s).2 = func (body s).2 := rfl

/-- The verdict of the dispatched handler depends only on the entry. -/
theorem handler_fst (tickType : Nat) (e : SDL_Event) (now : Int) (a : App) :
    (if e.type = tickType then App.onTick now a else App.onEvent (some e) now a).1
      = entryVerdict tickType e := by
  obtain ⟨ty, key⟩ := e
  by_cases h1 : ty = tickType
  · simp [h1, App.onTick, withDefer, entryVerdict]
  · by_cases h2 : ty = SDL_EVENT_QUIT
    · subst h2
      simp [h1, App.onEvent, withDefer, entryVerdict]
    · by_cases h3 : ty = SDL_EVENT_KEY_DOWN
      · subst h3
        by_cases h4 : key = SDLK_Q <;>
          simp [h1, h2, h4, App.onEvent, withDefer, entryVerdict]
      · simp [h1, h2, h3, App.onEvent, withDefer, entryVerdict]

/-! ### Claim theorems -/

/-- Claim C7: a call of onEvent with a null event returns the Fail verdict
and leaves the App untouched; the null branch returns before the event (or
any of its fields) could be read — in the embedding the `none` case carries
no event at all. -/
theorem onEvent_null_fails_without_deref (now : Int) (a : App) :
    App.onEvent none now a = (SDL_APP_FAILURE, a) := rfl

/-- Claim C6: for every non-null event, onEvent returns Succeed exactly
when the event is a quit request or a key-press of the designated quit key
Q, and returns Continue exactly otherwise (so it never fails on a non-null
event). -/
theorem onEvent_verdict_characterization (e : SDL_Event) (now : Int) (a : App) :
    ((App.onEvent (some e) now a).1 = SDL_APP_SUCCESS ↔
      (e.type = SDL_EVENT_QUIT ∨ (e.type = SDL_EVENT_KEY_DOWN ∧ e.key = SDLK_Q))) ∧
    ((App.onEvent (some e) now a).1 = SDL_APP_CONTINUE ↔
      ¬(e.type = SDL_EVENT_QUIT ∨ (e.type = SDL_EVENT_KEY_DOWN ∧ e.key = SDLK_Q))) := by
  obtain ⟨ty, key⟩ := e
  by_cases h2 : ty = SDL_EVENT_QUIT
  · subst h2
    simp [App.onEvent, withDefer]
  · by_cases h3 : ty = SDL_EVENT_KEY_DOWN
    · subst h3
      by_cases h4 : key = SDLK_Q <;>
        simp [h2, h4, App.onEvent, withDefer]
    · simp [h2, h3, App.onEvent, withDefer]

/-- Claim C9: onTick returns the Continue verdict and, through the Defer
registered at entry, records the current time into last_tick_time when the
scope exits; the deferred store fires for every possible body, i.e. on
every exit path. -/
theorem onTick_records_time_and_continues (now : Int) (a : App) :
    App.onTick now a = (SDL_APP_CONTINUE, { a with last_tick_time := now }) ∧
    ∀ body : App → SDL_AppResult × App,
      ((withDefer (fun s => { s with last_tick_time := now }) body a).2).last_tick_time
        = now := by
  exact ⟨rfl, fun body => rfl⟩

/-- Claim C5: onExit destroys the renderer then the window, in that order,
each exactly when present and at most once, nulls both handles (leaving
the timestamps alone), ignores the verdict it was passed, and on a second
call releases no handle at all (only the global SDL_Quit remains). -/
theorem onExit_releases_renderer_then_window_idempotent (res : SDL_AppResult) (a : App) :
    (App.onExit res a).2 =
      (a.renderer.toList.map SdlAction.destroyRenderer) ++
        (a.window.toList.map SdlAction.destroyWindow) ++ [SdlAction.sdlQuit] ∧
    (App.onExit res a).1.renderer = none ∧
    (App.onExit res a).1.window = none ∧
    (App.onExit res a).1.last_tick_time = a.last_tick_time ∧
    (App.onExit res a).1.last_event_time = a.last_event_time ∧
    (App.onExit res ((App.onExit res a).1)).2 = [SdlAction.sdlQuit] ∧
    ∀ res2 : SDL_AppResult, App.onExit res2 a = App.onExit res a := by
  obtain ⟨w, r, tt, te⟩ := a
  cases w <;> cases r <;>
    simp [App.onExit]

/-- Claim C3: the ticker's deadline sequence is arithmetic —
deadline(n+1) = deadline(n) + TICK_PERIOD — and is the same under any two
sequences of actual wake-up times, because the code advances
last_tick_time by the scheduled next_tick_time, never by now; so deadlines
are independent of how long handle-tick or the enqueue took and ticks do
not drift. -/
theorem tick_deadlines_arithmetic (t0 : Int) (wakes wakes2 : Nat → Int) (n : Nat) :
    tickerDeadline t0 wakes (n + 1) = tickerDeadline t0 wakes n + TICK_PERIOD ∧
    tickerDeadline t0 wakes n = tickerDeadline t0 wakes2 n := by
  constructor
  · rfl
  · have h : ∀ m, tickerLastSeq t0 wakes m = tickerLastSeq t0 wakes2 m := by
      intro m
      induction m with
      | zero => rfl
      | succ k ih => simp [tickerLastSeq, tickerNext, ih]
    simp [tickerDeadline, h n]

/-- Claim C10: App::init returns only Continue (on success) or Fail (when
SDL_CreateWindowAndRenderer fails) and never Succeed, so main's early
return-0 branch for an immediately successful init is unreachable on every
run. -/
theorem init_never_succeeds_early_exit_unreachable :
    (∀ (creation : Option (Nat × Nat)) (a : App),
      (App.init creation a).1 ≠ SDL_APP_SUCCESS) ∧
    (∀ (creation : Option (Nat × Nat)) (tickType : Nat)
      (entries : List (SDL_Event × Int)),
      (mainRun creation tickType entries).path ≠ ExitPath.earlySuccess) := by
  constructor
  · intro creation a
    cases creation <;> simp [App.init]
  · intro creation tickType entries
    cases creation with
    | none => simp [mainRun, App.init]
    | some wr =>
      by_cases ht : tickType = 0
      · simp [mainRun, App.init, ht]
      · simp only [mainRun, App.init]
        norm_num [ht]
        generalize (runLoop tickType entries _).fin = fin
        cases fin <;> simp [mainAfterLoop]

/-- Claim C2: the foreground loop dispatches the dequeued entries to the
Shell in exactly arrival order — routing an entry to handle-tick iff its
type equals the registered tick identifier and to handle-event otherwise,
with no priority between ticks and native events — and it stops with the
verdict of the first entry whose handler does not return Continue (the
whole queue is dispatched when every verdict is Continue). -/
theorem dispatch_order_spec (tickType : Nat) (entries : List (SDL_Event × Int))
    (a : App) :
    (runLoop tickType entries a).trace = specDispatch tickType entries ∧
    (runLoop tickType entries a).fin =
      Option.map (fun p => entryVerdict tickType p.1)
        (entries.find?
          (fun p => decide (entryVerdict tickType p.1 ≠ SDL_APP_CONTINUE))) := by
  induction entries generalizing a with
  | nil => exact ⟨rfl, rfl⟩
  | cons p rest ih =>
    obtain ⟨e, now⟩ := p
    have hfst := handler_fst tickType e now a
    by_cases hv : entryVerdict tickType e = SDL_APP_CONTINUE
    · constructor
      · simp only [runLoop, hfst, hv, if_pos]
        have := (ih (if e.type = tickType then App.onTick now a
          else App.onEvent (some e) now a).2).1
        simp [this, specDispatch, takeThrough, hv, routeOf]
      · simp only [runLoop, hfst, hv, if_pos]
        have := (ih (if e.type = tickType then App.onTick now a
          else App.onEvent (some e) now a).2).2
        simp [this, List.find?, hv]
    · constructor
      · simp [runLoop, hfst, hv, specDispatch, takeThrough, routeOf]
      · simp [runLoop, hfst, hv, List.find?]

/-- Claim C4: once the quitting flag is observed true by the ticker's
condition-variable wait, the ticker loop breaks at once, enqueuing no
further tick; and on every run that leaves the dispatch loop, the ticker
thread is joined before the process exits. -/
theorem quitting_stops_ticker_and_join_before_exit :
    (∀ last : Int, tickerIter true last = (none, 0)) ∧
    (∀ (creation : Option (Nat × Nat)) (tickType : Nat)
        (entries : List (SDL_Event × Int)),
      (mainRun creation tickType entries).path = ExitPath.loopExit →
        exitPrecededByJoin (mainRun creation tickType entries).trace = true) := by
  constructor
  · intro last
    rfl
  · intro creation tickType entries
    cases creation with
    | none => simp [mainRun, App.init]
    | some wr =>
      by_cases ht : tickType = 0
      · simp [mainRun, App.init, ht]
      · simp only [mainRun, App.init]
        norm_num [ht]
        generalize (runLoop tickType entries _).fin = fin
        cases fin <;> simp [mainAfterLoop, exitPrecededByJoin]

/-- Witness for C4 at a concrete run: init succeeds, registration returns
identifier 7, the only dequeued entry is a quit request, the loop exits,
and in the resulting trace the join happens before the process exit. -/
theorem quitting_stops_ticker_and_join_before_exit_witness :
    (mainRun (some (1, 2)) 7 [(⟨SDL_EVENT_QUIT, 0⟩, 3)]).path = ExitPath.loopExit ∧
    exitPrecededByJoin
      (mainRun (some (1, 2)) 7 [(⟨SDL_EVENT_QUIT, 0⟩, 3)]).trace = true :=
  ⟨by decide,
    quitting_stops_ticker_and_join_before_exit.2 (some (1, 2)) 7
      [(⟨SDL_EVENT_QUIT, 0⟩, 3)] (by decide)⟩

/-- Claim C8: whenever main exits, the status is 0 exactly when the final
verdict is Succeed, the status is always 0 or 1, and the two explicit
failure paths (init failure, tick-event-registration failure) both exit
with status 1. -/
theorem exit_status_iff_success (creation : Option (Nat × Nat)) (tickType : Nat)
    (entries : List (SDL_Event × Int)) :
    (∀ code : Nat, (mainRun creation tickType entries).exitCode = some code →
      ((code = 0 ↔
          (mainRun creation tickType entries).finalVerdict = SDL_APP_SUCCESS) ∧
        (code = 0 ∨ code = 1))) ∧
    ((mainRun creation tickType entries).path = ExitPath.earlyFailure ∨
        (mainRun creation tickType entries).path = ExitPath.regFailure →
      (mainRun creation tickType entries).exitCode = some 1) := by
  cases creation with
  | none => simp [mainRun, App.init]
  | some wr =>
    by_cases ht : tickType = 0
    · simp [mainRun, App.init, ht]
    · simp only [mainRun, App.init]
      norm_num [ht]
      generalize (runLoop tickType entries _).fin = fin
      cases fin with
      | none => simp [mainAfterLoop]
      | some res => cases res <;> simp [mainAfterLoop]

/-- Witness for C8 at a concrete run: a quit request terminates the loop
with Succeed, main's exit status is 0, and the theorem's equivalence holds
there. -/
theorem exit_status_iff_success_witness :
    (mainRun (some (1, 2)) 7 [(⟨SDL_EVENT_QUIT, 0⟩, 3)]).exitCode = some 0 ∧
    ((0 = 0 ↔
        (mainRun (some (1, 2)) 7
            [(⟨SDL_EVENT_QUIT, 0⟩, 3)]).finalVerdict = SDL_APP_SUCCESS) ∧
      (0 = 0 ∨ 0 = 1)) :=
  ⟨by decide,
    (exit_status_iff_success (some (1, 2)) 7 [(⟨SDL_EVENT_QUIT, 0⟩, 3)]).1 0
      (by decide)⟩

/-- Counterexample to claim C1 as stated: on the run where initialize
fails (SDL_CreateWindowAndRenderer fails), main returns 1 from the early
return that precedes the registration of the deferred cleanup, so onExit
runs zero times — not exactly once — even though the run terminated. -/
theorem initFailure_run_skips_onExit :
    (mainRun none 7 []).exitCode = some 1 ∧
    (mainRun none 7 []).trace.count MainAction.appOnExit = 0 := by
  decide

/-- Claim C1 amended: onExit runs exactly once on every run that gets past
the early returns on init's verdict — the deferred cleanup registered
right after a successful, continuing init fires both when tick-event
registration then fails and when the dispatch loop exits — but when
initialize fails or signals immediate success, main returns before that
cleanup is registered and onExit is not called at all. -/
theorem onExit_exactly_once_after_continuing_init (creation : Option (Nat × Nat))
    (tickType : Nat) (entries : List (SDL_Event × Int)) :
    ((mainRun creation tickType entries).path = ExitPath.regFailure ∨
        (mainRun creation tickType entries).path = ExitPath.loopExit →
      (mainRun creation tickType entries).trace.count MainAction.appOnExit = 1) ∧
    ((mainRun creation tickType entries).path = ExitPath.earlySuccess ∨
        (mainRun creation tickType entries).path = ExitPath.earlyFailure →
      (mainRun creation tickType entries).trace.count MainAction.appOnExit = 0) := by
  cases creation with
  | none => simp [mainRun, App.init]
  | some wr =>
    by_cases ht : tickType = 0
    · simp [mainRun, App.init, ht]
    · simp only [mainRun, App.init]
      norm_num [ht]
      generalize (runLoop tickType entries _).fin = fin
      cases fin <;> simp [mainAfterLoop]

/-- Witness for the amended C1 at concrete runs: a registration-failure
run counts one onExit; an init-failure run counts zero. -/
theorem onExit_exactly_once_after_continuing_init_witness :
    (mainRun (some (1, 2)) 0 []).trace.count MainAction.appOnExit = 1 ∧
    (mainRun none 7 []).trace.count MainAction.appOnExit = 0 :=
  ⟨(onExit_exactly_once_after_continuing_init (some (1, 2)) 0 []).1
      (Or.inl (by decide)),
    (onExit_exactly_once_after_continuing_init none 7 []).2 (Or.inr (by decide))⟩

end Dashboard
